import Mathlib

/-!
Shallow embedding of the `mau_local_stt` repository (source files
`maulocalstt/transcribe_audio.py` and `maulocalstt/maulocalstt.py`).

The embedding models the backend lifecycle manager
(`MauLocalSTT.on_config_update`), the transcription pipeline entry points
(`transcribe_audio_whisper`, `transcribe_audio_vosk`,
`MauLocalSTT.transcribe_audio_message`) and the pure audio-conversion
fragments.  External effects (decoder subprocess spawns, model
loads/releases, stream reads, replies, log messages) are recorded in an
explicit event trace of type `Ev`.

Python instance attributes that can be removed with `del` are modelled by
`Attr`: the vosk branch of `on_config_update` executes
`del self.whisper_model` / `del self.vosk_model` without re-assigning the
attribute, so a later read of the attribute raises `AttributeError`; this
is modelled by `Attr.missing` and `PyErr.attributeError`.
-/

namespace MauLocalSTT

/-- The two transcription backends. -/
inductive Backend
  | whisper
  | vosk
  deriving DecidableEq

/-- Python exceptions that the embedded code can raise (uncaught). -/
inductive PyErr
  | attributeError
  | keyError
  | typeError
  | valueError
  deriving DecidableEq

/-- Log messages emitted by the embedded code (error/warning level only;
debug-level logging carries no information the claims are about and is
omitted from the trace). -/
inductive LogMsg
  | whisperNotInstalled
  | voskNotInstalled
  | voskModelNotFound
  | ffmpegMissing
  | noValidBackend
  | noAudioFile
  | whisperException
  deriving DecidableEq

/-- Observable events of the manager and the pipeline.  `load`/`release`
record construction and release of a native model handle, `spawnDecoder`
records an ffmpeg subprocess invocation, `readChunk n` records a read of
`n` bytes from the decoder's stdout stream, `reply` records sending a
reply to the message. -/
inductive Ev
  | load (k : Backend) (ident : String)
  | release (k : Backend)
  | spawnDecoder (fmt : String)
  | readChunk (n : Nat)
  | reply (text : String)
  | logged (m : LogMsg)
  deriving DecidableEq

/-- A Python instance attribute: either present with a value, or removed
by `del` (a subsequent read raises `AttributeError`). -/
inductive Attr (α : Type)
  | missing
  | val (a : α)
  deriving DecidableEq

/-- The `whisper` section of the configuration
(`maulocalstt/config.py`, copied dict `whisper`). -/
structure WhisperConf where
  model_name : String
  base_dir : String
  language : String
  translate : Bool
  deriving DecidableEq

/-- The `vosk` section of the configuration. -/
structure VoskConf where
  model_path : String
  deriving DecidableEq

/-- A configuration snapshot: `backend` plus the two per-backend maps. -/
structure Conf where
  backend : String
  whisper : WhisperConf
  vosk : VoskConf
  deriving DecidableEq

/-- The mutable state of the `MauLocalSTT` plugin object
(`maulocalstt.py`, `__init__`, lines 46-51).  Model handles are
identified by the string parameter they were loaded from.
`whisper_model` and `vosk_model` are `Attr`s because the vosk branch of
`on_config_update` deletes them with `del` without re-assigning. -/
structure STTState where
  whisper_model : Attr (Option String)
  vosk_model : Attr (Option String)
  current_backend : Option Backend
  last_whisper_model_name : Option String
  last_vosk_model_path : Option String
  deriving DecidableEq

/-- The state set up by `__init__`: every field `None`. -/
def initState : STTState :=
  { whisper_model := Attr.val none
    vosk_model := Attr.val none
    current_backend := none
    last_whisper_model_name := none
    last_vosk_model_path := none }

/-- The runtime environment: which native libraries import successfully
(`import_backends.py`), the filesystem (`os.path.isdir`), presence of
ffmpeg on PATH (`shutil.which`), the behaviour of the loaded models, and
the length of the PCM stream the decoder produces for the request. -/
structure Env where
  whisperInstalled : Bool
  voskInstalled : Bool
  isdir : String → Bool
  ffmpegOnPath : Bool
  whisperRaises : Bool
  whisperText : String
  voskText : String
  pcmLen : Nat

/-- From `transcribe_audio.py` line 11: `SAMPLE_RATE = 16000`. -/
def SAMPLE_RATE : Nat := 16000

/-- From `transcribe_audio.py` line 13:
`VOSK_CHUNK_SIZE = 16000 * 4 * 10`. -/
def VOSK_CHUNK_SIZE : Nat := 16000 * 4 * 10

/-- From `transcribe_audio.py` lines 15-20: the `MIME_FORMAT_MAP` dict,
as an association list in source order. -/
def MIME_FORMAT_MAP : List (String × String) :=
  [("audio/ogg", "ogg"), ("audio/mpeg", "mp3"),
   ("audio/vnd.wav", "wav"), ("audio/mp4", "mp4")]

/-- Lines 24-25 of `_run_ffmpeg`: if `';' in mimeType`, keep only the
part before the first `';'` (otherwise the string is unchanged, which
coincides with taking the prefix before the first `';'`). -/
def stripMimeParams (m : String) : String :=
  (m.toList.takeWhile (fun ch => ch != ';')).asString

/-- `_run_ffmpeg` (`transcribe_audio.py` lines 23-38): strip MIME
parameters, look the MIME type up in `MIME_FORMAT_MAP` (a missing key
raises `KeyError` before any subprocess is created), then spawn the
ffmpeg decoder.  The returned string is the container format passed to
ffmpeg; the spawn is recorded as an event. -/
def run_ffmpeg (mime : String) : Except PyErr String × List Ev :=
  match MIME_FORMAT_MAP.lookup (stripMimeParams mime) with
  | none => (Except.error PyErr.keyError, [])
  | some fmt => (Except.ok fmt, [Ev.spawnDecoder fmt])

/-- Decode one little-endian pair of bytes as a 16-bit signed integer
(`np.int16` interpretation used by `np.frombuffer` on line 58). -/
def s16FromLE (lo hi : Nat) : Int :=
  let u := lo + 256 * hi
  if u < 32768 then (u : Int) else (u : Int) - 65536

/-- `np.frombuffer(data, np.int16)` on a byte list: pairs of bytes become
little-endian signed 16-bit values; a buffer whose length is not a
multiple of 2 raises (`none`). -/
def bytesToS16LE : List Nat → Option (List Int)
  | [] => some []
  | _ :: [] => none
  | lo :: hi :: rest => (bytesToS16LE rest).map (fun l => s16FromLE lo hi :: l)

/-- Line 58 of `transcribe_audio.py`:
`np.frombuffer(data_converted, np.int16).flatten().astype(np.float32) / 32768.0`.
Each 16-bit value `n` with `|n| ≤ 32768` divided by `2^15` is exactly
representable in IEEE binary32, so modelling the float arithmetic by
exact rationals is faithful here. -/
def whisperSamples (bs : List Nat) : Option (List ℚ) :=
  (bytesToS16LE bs).map (List.map (fun (i : ℤ) => ((i : ℚ) / 32768)))

/-- The read sizes produced by the `while` loop of
`transcribe_audio_vosk` (lines 82-89): each `stdout.read(VOSK_CHUNK_SIZE)`
on a stream with `r` bytes remaining returns `min VOSK_CHUNK_SIZE r`
bytes, and the loop stops at a zero-length read.  The first argument is
fuel bounding the number of iterations; `voskReadSizes` supplies enough
fuel for the loop to run to completion. -/
def voskReadSizesAux : Nat → Nat → List Nat
  | 0, _ => []
  | fuel + 1, r =>
    if r = 0 then []
    else min VOSK_CHUNK_SIZE r :: voskReadSizesAux fuel (r - min VOSK_CHUNK_SIZE r)

/-- The sizes of the data-returning reads of the vosk loop on a PCM
stream of `r` bytes (the final zero-length read is not in this list). -/
def voskReadSizes (r : Nat) : List Nat :=
  voskReadSizesAux (r / VOSK_CHUNK_SIZE + 1) r

/-- `transcribe_audio_whisper` (`transcribe_audio.py` lines 50-62).
`model` is the `whisper_model` argument: `none` models Python `None`
(calling `.transcribe` on it raises `AttributeError`, caught by
`_run_whisper`, which logs and returns the string `"Error"`); a present
model raises iff `env.whisperRaises` (also caught, yielding `"Error"`).
An odd-length PCM buffer makes `np.frombuffer` raise (uncaught). -/
def transcribe_audio_whisper (env : Env) (model : Option String) (mime : String) :
    Except PyErr String × List Ev :=
  if env.whisperInstalled then
    match run_ffmpeg mime with
    | (Except.error e, evs) => (Except.error e, evs)
    | (Except.ok _fmt, evs) =>
      if env.pcmLen % 2 = 0 then
        match model with
        | none => (Except.ok "Error", evs ++ [Ev.logged LogMsg.whisperException])
        | some _ =>
          if env.whisperRaises then
            (Except.ok "Error", evs ++ [Ev.logged LogMsg.whisperException])
          else
            (Except.ok env.whisperText, evs)
      else (Except.error PyErr.valueError, evs)
  else (Except.ok "", [])

/-- `transcribe_audio_vosk` (`transcribe_audio.py` lines 73-95).
`vosk.KaldiRecognizer(None, SAMPLE_RATE)` raises (uncaught) when the
model is `None`.  Exceptions inside `AcceptWaveform` are swallowed by
`_run_vosk`, so the loop always runs all reads; the reads are the chunk
sizes followed by the terminating zero-length read.  The final result
text comes from the recognizer (`env.voskText`). -/
def transcribe_audio_vosk (env : Env) (model : Option String) (mime : String) :
    Except PyErr String × List Ev :=
  if env.voskInstalled then
    match run_ffmpeg mime with
    | (Except.error e, evs) => (Except.error e, evs)
    | (Except.ok _fmt, evs) =>
      match model with
      | none => (Except.error PyErr.typeError, evs)
      | some _ =>
        (Except.ok env.voskText,
          evs ++ (voskReadSizes env.pcmLen).map Ev.readChunk ++ [Ev.readChunk 0])
  else (Except.ok "", [])

/-- The whisper branch of `MauLocalSTT.on_config_update`
(`maulocalstt.py` lines 59-84).  The source guard is
`current_backend != 'whisper' or last_whisper_model_name != model_name`;
here the negated guard selects the no-reload path.  On reload, the old
whisper model is deleted and re-assigned `None`, then the old vosk model
likewise, `current_backend` is cleared, the new model is loaded and the
backend/name fields are set.  On every whisper reconcile the code then
assigns `whisper_model.params.language/translate`, which raises
`AttributeError` when `whisper_model` is `None` or the attribute is
missing. -/
def whisperBranch (env : Env) (c : Conf) (s : STTState) :
    Except PyErr Unit × STTState × List Ev :=
  if c.backend = "whisper" then
    if env.whisperInstalled then
      if s.current_backend = some Backend.whisper ∧
          s.last_whisper_model_name = some c.whisper.model_name then
        match s.whisper_model with
        | Attr.missing => (Except.error PyErr.attributeError, s, [])
        | Attr.val none => (Except.error PyErr.attributeError, s, [])
        | Attr.val (some _) => (Except.ok (), s, [])
      else
        match s.whisper_model, s.vosk_model with
        | Attr.missing, _ =>
          (Except.error PyErr.attributeError, s, [])
        | Attr.val none, Attr.missing =>
          (Except.error PyErr.attributeError, s, [])
        | Attr.val (some _), Attr.missing =>
          (Except.error PyErr.attributeError,
            { s with whisper_model := Attr.val none },
            [Ev.release Backend.whisper])
        | Attr.val none, Attr.val none =>
          (Except.ok (),
            { s with
                whisper_model := Attr.val (some c.whisper.model_name)
                current_backend := some Backend.whisper
                last_whisper_model_name := some c.whisper.model_name },
            [Ev.load Backend.whisper c.whisper.model_name])
        | Attr.val none, Attr.val (some _) =>
          (Except.ok (),
            { s with
                vosk_model := Attr.val none
                whisper_model := Attr.val (some c.whisper.model_name)
                current_backend := some Backend.whisper
                last_whisper_model_name := some c.whisper.model_name },
            [Ev.release Backend.vosk, Ev.load Backend.whisper c.whisper.model_name])
        | Attr.val (some _), Attr.val none =>
          (Except.ok (),
            { s with
                whisper_model := Attr.val (some c.whisper.model_name)
                current_backend := some Backend.whisper
                last_whisper_model_name := some c.whisper.model_name },
            [Ev.release Backend.whisper,
             Ev.load Backend.whisper c.whisper.model_name])
        | Attr.val (some _), Attr.val (some _) =>
          (Except.ok (),
            { s with
                vosk_model := Attr.val none
                whisper_model := Attr.val (some c.whisper.model_name)
                current_backend := some Backend.whisper
                last_whisper_model_name := some c.whisper.model_name },
            [Ev.release Backend.whisper, Ev.release Backend.vosk,
             Ev.load Backend.whisper c.whisper.model_name])
    else
      (Except.ok (), s, [Ev.logged LogMsg.whisperNotInstalled])
  else (Except.ok (), s, [])

/-- The vosk branch of `MauLocalSTT.on_config_update`
(`maulocalstt.py` lines 86-107).  Note lines 91-94: the old models are
deleted with `del` and NOT re-assigned, so the attribute becomes
`missing`.  After clearing `current_backend`, the path is checked with
`os.path.isdir`; on success the model is loaded and the fields set, on
failure only an error is logged (`vosk_model` stays missing if it was
deleted). -/
def voskBranch (env : Env) (c : Conf) (s : STTState) :
    Except PyErr Unit × STTState × List Ev :=
  if c.backend = "vosk" then
    if env.voskInstalled then
      if s.current_backend = some Backend.vosk ∧
          s.last_vosk_model_path = some c.vosk.model_path then
        (Except.ok (), s, [])
      else
        match s.whisper_model, s.vosk_model with
        | Attr.missing, _ =>
          (Except.error PyErr.attributeError, s, [])
        | Attr.val none, Attr.missing =>
          (Except.error PyErr.attributeError, s, [])
        | Attr.val (some _), Attr.missing =>
          (Except.error PyErr.attributeError,
            { s with whisper_model := Attr.missing },
            [Ev.release Backend.whisper])
        | Attr.val none, Attr.val none =>
          if env.isdir c.vosk.model_path then
            (Except.ok (),
              { s with
                  vosk_model := Attr.val (some c.vosk.model_path)
                  current_backend := some Backend.vosk
                  last_vosk_model_path := some c.vosk.model_path },
              [Ev.load Backend.vosk c.vosk.model_path])
          else
            (Except.ok (), { s with current_backend := none },
              [Ev.logged LogMsg.voskModelNotFound])
        | Attr.val none, Attr.val (some _) =>
          if env.isdir c.vosk.model_path then
            (Except.ok (),
              { s with
                  vosk_model := Attr.val (some c.vosk.model_path)
                  current_backend := some Backend.vosk
                  last_vosk_model_path := some c.vosk.model_path },
              [Ev.release Backend.vosk, Ev.load Backend.vosk c.vosk.model_path])
          else
            (Except.ok (),
              { s with vosk_model := Attr.missing, current_backend := none },
              [Ev.release Backend.vosk, Ev.logged LogMsg.voskModelNotFound])
        | Attr.val (some _), Attr.val none =>
          if env.isdir c.vosk.model_path then
            (Except.ok (),
              { s with
                  whisper_model := Attr.missing
                  vosk_model := Attr.val (some c.vosk.model_path)
                  current_backend := some Backend.vosk
                  last_vosk_model_path := some c.vosk.model_path },
              [Ev.release Backend.whisper, Ev.load Backend.vosk c.vosk.model_path])
          else
            (Except.ok (),
              { s with whisper_model := Attr.missing, current_backend := none },
              [Ev.release Backend.whisper, Ev.logged LogMsg.voskModelNotFound])
        | Attr.val (some _), Attr.val (some _) =>
          if env.isdir c.vosk.model_path then
            (Except.ok (),
              { s with
                  whisper_model := Attr.missing
                  vosk_model := Attr.val (some c.vosk.model_path)
                  current_backend := some Backend.vosk
                  last_vosk_model_path := some c.vosk.model_path },
              [Ev.release Backend.whisper, Ev.release Backend.vosk,
               Ev.load Backend.vosk c.vosk.model_path])
          else
            (Except.ok (),
              { s with
                  whisper_model := Attr.missing
                  vosk_model := Attr.missing
                  current_backend := none },
              [Ev.release Backend.whisper, Ev.release Backend.vosk,
               Ev.logged LogMsg.voskModelNotFound])
    else
      (Except.ok (), s, [Ev.logged LogMsg.voskNotInstalled])
  else (Except.ok (), s, [])

/-- `MauLocalSTT.on_config_update` (`maulocalstt.py` lines 55-107): the
whisper `if` block runs first; if it raises, the vosk `if` block is never
reached (exception propagation); otherwise the vosk block runs on the
resulting state.  (A string equals at most one of `"whisper"`/`"vosk"`,
so at most one branch acts.) -/
def on_config_update (env : Env) (c : Conf) (s : STTState) :
    Except PyErr Unit × STTState × List Ev :=
  match whisperBranch env c s with
  | (Except.error e, s1, ev1) => (Except.error e, s1, ev1)
  | (Except.ok _, s1, ev1) =>
    let r := voskBranch env c s1
    (r.1, r.2.1, ev1 ++ r.2.2)

/-- A sequence of configuration updates applied in order from a state.
The state persists across calls even when a call raises (the exception
propagates out of the plugin but the object survives and later updates
still invoke `on_config_update`).  Events of all calls are concatenated. -/
def runSeq (env : Env) : List Conf → STTState → STTState × List Ev
  | [], s => (s, [])
  | c :: cs, s =>
    let r := on_config_update env c s
    let rest := runSeq env cs r.2.1
    (rest.1, r.2.2 ++ rest.2)

/-- An incoming message event, reduced to the fields
`transcribe_audio_message` inspects. -/
structure Msg where
  isAudio : Bool
  hasUrl : Bool
  hasFile : Bool
  mime : String
  deriving DecidableEq

/-- `MauLocalSTT.transcribe_audio_message` (`maulocalstt.py` lines
129-166): ignore non-audio messages; warn and return when the message
has neither `url` nor `file`; error and return when ffmpeg is not on
PATH; then dispatch on `self.config['backend']` and the installed flags
(NOT on `self.current_backend`); finally reply with the transcription.
Exceptions from the drivers propagate (no reply). -/
def transcribe_audio_message (env : Env) (c : Conf) (s : STTState) (msg : Msg) :
    Except PyErr Unit × List Ev :=
  if msg.isAudio then
    if msg.hasUrl || msg.hasFile then
      if env.ffmpegOnPath then
        if c.backend = "whisper" ∧ env.whisperInstalled = true then
          match s.whisper_model with
          | Attr.missing => (Except.error PyErr.attributeError, [])
          | Attr.val m =>
            match transcribe_audio_whisper env m msg.mime with
            | (Except.error e, evs) => (Except.error e, evs)
            | (Except.ok t, evs) => (Except.ok (), evs ++ [Ev.reply t])
        else if c.backend = "vosk" ∧ env.voskInstalled = true then
          match s.vosk_model with
          | Attr.missing => (Except.error PyErr.attributeError, [])
          | Attr.val m =>
            match transcribe_audio_vosk env m msg.mime with
            | (Except.error e, evs) => (Except.error e, evs)
            | (Except.ok t, evs) => (Except.ok (), evs ++ [Ev.reply t])
        else (Except.ok (), [Ev.logged LogMsg.noValidBackend])
      else (Except.ok (), [Ev.logged LogMsg.ffmpegMissing])
    else (Except.ok (), [Ev.logged LogMsg.noAudioFile])
  else (Except.ok (), [])

/-- How many model handles a state currently stores (an `Attr` that is
`missing` or holds `None` stores none). -/
def attrLive : Attr (Option String) → Nat
  | Attr.val (some _) => 1
  | _ => 0

/-- Number of live model handles stored in a state. -/
def storedLive (s : STTState) : Nat :=
  attrLive s.whisper_model + attrLive s.vosk_model

/-- Effect of one event on the number of live model handles. -/
def liveDelta : Ev → Int
  | Ev.load _ _ => 1
  | Ev.release _ => -1
  | _ => 0

/-- Net effect of a trace on the number of live model handles. -/
def evSum (evs : List Ev) : Int := (evs.map liveDelta).sum

/-- The maximum number of simultaneously live model handles over every
instant of a trace, starting from `n` live handles (the maximum is over
the point before each event and after the last). -/
def maxLive : Int → List Ev → Int
  | n, [] => n
  | n, e :: es => max n (maxLive (n + liveDelta e) es)

/-- Count of whisper model load events in a trace. -/
def whisperLoadCount (evs : List Ev) : Nat :=
  (evs.filter (fun e => match e with
    | Ev.load Backend.whisper _ => true
    | _ => false)).length

/-! ### Concrete environments, configurations and states used by witnesses
and counterexamples -/

/-- Environment with neither backend library installed. -/
def EnvOff : Env :=
  { whisperInstalled := false, voskInstalled := false, isdir := fun _ => false
    ffmpegOnPath := true, whisperRaises := false, whisperText := ""
    voskText := "", pcmLen := 0 }

/-- Environment for exercising the vosk chunking loop on a PCM stream of
`320000 * 3 + 50` bytes. -/
def EnvChunk : Env :=
  { whisperInstalled := true, voskInstalled := true, isdir := fun _ => true
    ffmpegOnPath := true, whisperRaises := false, whisperText := ""
    voskText := "final text", pcmLen := 320000 * 3 + 50 }

/-- Environment where only the directory `/models/A` exists. -/
def EnvPath : Env :=
  { whisperInstalled := true, voskInstalled := true
    isdir := fun p => p == "/models/A"
    ffmpegOnPath := true, whisperRaises := false, whisperText := ""
    voskText := "", pcmLen := 0 }

/-- Vosk configuration pointing at the existing directory `/models/A`. -/
def ConfVoskA : Conf :=
  { backend := "vosk"
    whisper := { model_name := "tiny", base_dir := "d", language := "en", translate := false }
    vosk := { model_path := "/models/A" } }

/-- Vosk configuration pointing at the missing directory `/models/B`. -/
def ConfVoskB : Conf :=
  { backend := "vosk"
    whisper := { model_name := "tiny", base_dir := "d", language := "en", translate := false }
    vosk := { model_path := "/models/B" } }

/-- Environment where no directory exists (every vosk load fails). -/
def EnvDispatch : Env :=
  { whisperInstalled := true, voskInstalled := true, isdir := fun _ => false
    ffmpegOnPath := true, whisperRaises := false, whisperText := ""
    voskText := "", pcmLen := 0 }

/-- Vosk configuration whose model path does not exist in `EnvDispatch`. -/
def ConfVoskBad : Conf :=
  { backend := "vosk"
    whisper := { model_name := "tiny", base_dir := "d", language := "en", translate := false }
    vosk := { model_path := "/missing" } }

/-- The state after reconciling `ConfVoskBad` in `EnvDispatch` from the
initial state: the load failed, so no backend is active. -/
def StateNoBackend : STTState :=
  (on_config_update EnvDispatch ConfVoskBad initState).2.1

/-- An ordinary unencrypted OGG audio message. -/
def MsgOgg : Msg :=
  { isAudio := true, hasUrl := true, hasFile := false, mime := "audio/ogg" }

/-- Environment where whisper is installed but the loaded whisper model
raises during inference. -/
def EnvWhisperFail : Env :=
  { whisperInstalled := true, voskInstalled := false, isdir := fun _ => false
    ffmpegOnPath := true, whisperRaises := true, whisperText := "good text"
    voskText := "", pcmLen := 4 }

/-- A whisper configuration. -/
def ConfWhisper : Conf :=
  { backend := "whisper"
    whisper := { model_name := "tiny", base_dir := "d", language := "en", translate := false }
    vosk := { model_path := "p" } }

/-- The state after successfully loading the whisper model of
`ConfWhisper` in `EnvWhisperFail`. -/
def StateWhisperLoaded : STTState :=
  (on_config_update EnvWhisperFail ConfWhisper initState).2.1

/-! ### Claim theorems -/

/-- Claim C9.  The Whisper driver's conversion on line 58 of
`transcribe_audio.py` interprets the PCM buffer as little-endian signed
16-bit samples divided by 32768: the bytes `[0x00, 0x80]` decode to the
sample `-1` and `[0xFF, 0x7F]` to `32767/32768`, which lies within
`10⁻⁶` of `0.999969`.  (Every `n/32768` with `|n| ≤ 32768` is exactly
representable in IEEE binary32, so exact rationals model the float
arithmetic faithfully.) -/
theorem whisper_sample_conversion :
    whisperSamples [0x00, 0x80] = some [(-1 : ℚ)] ∧
    whisperSamples [0xFF, 0x7F] = some [((32767 : ℚ) / 32768)] ∧
    (999969 : ℚ) / 1000000 < (32767 : ℚ) / 32768 ∧
    (32767 : ℚ) / 32768 - 999969 / 1000000 < 1 / 1000000 := by
  refine ⟨?_, ?_, by norm_num, by norm_num⟩ <;>
    norm_num [whisperSamples, bytesToS16LE, s16FromLE]

/-- Claim C10.  When the selected backend's library is not installed,
the corresponding entry point returns the empty string without raising
and without any decoder subprocess invocation (the event trace is
empty). -/
theorem uninstalled_returns_empty (env : Env) (m : Option String) (mime : String) :
    (env.whisperInstalled = false →
      transcribe_audio_whisper env m mime = (Except.ok "", [])) ∧
    (env.voskInstalled = false →
      transcribe_audio_vosk env m mime = (Except.ok "", [])) := by
  constructor <;> intro h <;>
    simp [transcribe_audio_whisper, transcribe_audio_vosk, h]

/-- Witness for `uninstalled_returns_empty` at a concrete environment. -/
theorem uninstalled_returns_empty_witness :
    EnvOff.whisperInstalled = false ∧ EnvOff.voskInstalled = false ∧
    transcribe_audio_whisper EnvOff (some "m") "audio/ogg" = (Except.ok "", []) ∧
    transcribe_audio_vosk EnvOff (some "m") "audio/ogg" = (Except.ok "", []) :=
  ⟨rfl, rfl, (uninstalled_returns_empty EnvOff (some "m") "audio/ogg").1 rfl,
    (uninstalled_returns_empty EnvOff (some "m") "audio/ogg").2 rfl⟩

/-- Claim C1, counterexample.  The source constant `VOSK_CHUNK_SIZE` is
`16000 * 4 * 10 = 640000`, not `320000`, so on a PCM stream of
`320000 * 3 + 50` bytes the driver does not issue 4 data-returning
reads. -/
theorem vosk_chunk_claim_counterexample :
    ¬ (VOSK_CHUNK_SIZE = 320000 ∧
      ((transcribe_audio_vosk EnvChunk (some "model") "audio/ogg").2.filter
        (fun e => match e with
          | Ev.readChunk (_ + 1) => true
          | _ => false)).length = 4) := by
  decide

/-- Claim C1, amended.  The Vosk driver reads PCM from the decoder
stream in fixed-size chunks of `VOSK_CHUNK_SIZE = 640000` bytes until a
zero-length read; for a PCM stream of exactly `320000 * 3 + 50` bytes it
issues exactly 2 reads returning data (one full chunk of 640000 bytes
and one partial chunk of 320050 bytes) and one further read returning
zero length before finalizing. -/
theorem vosk_chunking_amended :
    VOSK_CHUNK_SIZE = 640000 ∧
    transcribe_audio_vosk EnvChunk (some "model") "audio/ogg" =
      (Except.ok "final text",
        [Ev.spawnDecoder "ogg", Ev.readChunk 640000,
         Ev.readChunk 320050, Ev.readChunk 0]) := by
  exact ⟨rfl, rfl⟩

/-- Claim C7.  Any MIME type whose parameter-stripped form is outside
the four-entry table makes `_run_ffmpeg` fail with `KeyError` before any
subprocess invocation (empty event trace), and the table maps
`audio/ogg`, `audio/mpeg`, `audio/vnd.wav`, `audio/mp4` to `ogg`, `mp3`,
`wav`, `mp4` respectively. -/
theorem mime_table_and_unsupported (mime : String)
    (h : stripMimeParams mime ∉
      ["audio/ogg", "audio/mpeg", "audio/vnd.wav", "audio/mp4"]) :
    run_ffmpeg mime = (Except.error PyErr.keyError, []) ∧
    MIME_FORMAT_MAP.lookup "audio/ogg" = some "ogg" ∧
    MIME_FORMAT_MAP.lookup "audio/mpeg" = some "mp3" ∧
    MIME_FORMAT_MAP.lookup "audio/vnd.wav" = some "wav" ∧
    MIME_FORMAT_MAP.lookup "audio/mp4" = some "mp4" := by
  refine ⟨?_, by decide, by decide, by decide, by decide⟩
  simp only [List.mem_cons, List.not_mem_nil, or_false, not_or] at h
  obtain ⟨h1, h2, h3, h4⟩ := h
  simp [run_ffmpeg, MIME_FORMAT_MAP, List.lookup,
    beq_eq_false_iff_ne.mpr h1, beq_eq_false_iff_ne.mpr h2,
    beq_eq_false_iff_ne.mpr h3, beq_eq_false_iff_ne.mpr h4]

/-- Witness for `mime_table_and_unsupported` at the unmapped MIME type
`audio/flac`. -/
theorem mime_table_and_unsupported_witness :
    run_ffmpeg "audio/flac" = (Except.error PyErr.keyError, []) ∧
    MIME_FORMAT_MAP.lookup "audio/ogg" = some "ogg" ∧
    MIME_FORMAT_MAP.lookup "audio/mpeg" = some "mp3" ∧
    MIME_FORMAT_MAP.lookup "audio/vnd.wav" = some "wav" ∧
    MIME_FORMAT_MAP.lookup "audio/mp4" = some "mp4" :=
  mime_table_and_unsupported "audio/flac" (by decide)

/-- Claim C8.  When the configured backend's library is unavailable,
`on_config_update` only logs the unavailability and returns the state
completely unchanged (model handles, `current_backend` and the last-seen
identifying parameters included). -/
theorem backend_unavailable_state_unchanged (env : Env) (c : Conf) (s : STTState) :
    (c.backend = "whisper" → env.whisperInstalled = false →
      on_config_update env c s =
        (Except.ok (), s, [Ev.logged LogMsg.whisperNotInstalled])) ∧
    (c.backend = "vosk" → env.voskInstalled = false →
      on_config_update env c s =
        (Except.ok (), s, [Ev.logged LogMsg.voskNotInstalled])) := by
  constructor
  · intro hb hw
    simp [on_config_update, whisperBranch, voskBranch, hb, hw]
  · intro hb hv
    simp [on_config_update, whisperBranch, voskBranch, hb, hv]

/-- Witness for `backend_unavailable_state_unchanged`: with whisper
configured but not installed, the state (here one with a live vosk
model) is untouched. -/
theorem backend_unavailable_state_unchanged_witness :
    on_config_update EnvOff ConfWhisper StateNoBackend =
      (Except.ok (), StateNoBackend, [Ev.logged LogMsg.whisperNotInstalled]) :=
  (backend_unavailable_state_unchanged EnvOff ConfWhisper StateNoBackend).1 rfl rfl

/-- Claim C4, counterexample.  `transcribe_audio_message` dispatches on
`config['backend']` and the installed flags, not on `current_backend`:
in `StateNoBackend` no backend is active (`current_backend = none`, no
model loaded), yet a request is routed to the vosk driver and the
decoder subprocess IS spawned, instead of the claimed
`NoBackendAvailable` with no transcoding. -/
theorem dispatch_by_state_counterexample :
    StateNoBackend.current_backend = none ∧
    Ev.spawnDecoder "ogg" ∈
      (transcribe_audio_message EnvDispatch ConfVoskBad StateNoBackend MsgOgg).2 := by
  decide

/-- Claim C4, amended.  The pipeline selects the transcription driver by
the configured backend string together with the installed flags (not by
`current_backend`); when the configured kind's library support is
unavailable, or the configured backend is neither kind, the request is
answered with only the `no valid backend` warning: no decoder invocation
and no reply.  Whether a model is actually loaded is not consulted, so a
request with a configured-and-installed backend may attempt transcoding
even when no model is loaded. -/
theorem dispatch_by_config (env : Env) (c : Conf) (s : STTState) (msg : Msg)
    (ha : msg.isAudio = true) (hu : msg.hasUrl = true)
    (hf : env.ffmpegOnPath = true)
    (hw : ¬ (c.backend = "whisper" ∧ env.whisperInstalled = true))
    (hv : ¬ (c.backend = "vosk" ∧ env.voskInstalled = true)) :
    transcribe_audio_message env c s msg =
      (Except.ok (), [Ev.logged LogMsg.noValidBackend]) := by
  simp [transcribe_audio_message, ha, hu, hf, hw, hv]

/-- Witness for `dispatch_by_config`: whisper is configured but not
installed, so the request yields only the warning. -/
theorem dispatch_by_config_witness :
    transcribe_audio_message EnvOff ConfWhisper initState MsgOgg =
      (Except.ok (), [Ev.logged LogMsg.noValidBackend]) :=
  dispatch_by_config EnvOff ConfWhisper initState MsgOgg rfl rfl rfl
    (by decide) (by decide)

/-- Claim C3, counterexample.  A whisper request whose inference raises
does NOT yield silence: `_run_whisper` catches the exception and returns
the string `"Error"`, which `transcribe_audio_message` then sends as the
reply. -/
theorem failed_transcription_reply_counterexample :
    EnvWhisperFail.whisperRaises = true ∧
    Ev.reply "Error" ∈
      (transcribe_audio_message EnvWhisperFail ConfWhisper
        StateWhisperLoaded MsgOgg).2 := by
  decide

/-- Claim C3, amended.  An inference failure in the Whisper backend
never crashes the handler (the exception is caught in `_run_whisper`),
but instead of silence the literal string `"Error"` is sent as the
reply to the message. -/
theorem whisper_failure_replies_error (env : Env) (c : Conf) (s : STTState)
    (msg : Msg) (m : String)
    (ha : msg.isAudio = true) (hu : msg.hasUrl = true)
    (hf : env.ffmpegOnPath = true)
    (hb : c.backend = "whisper") (hw : env.whisperInstalled = true)
    (hm : s.whisper_model = Attr.val (some m))
    (hr : env.whisperRaises = true)
    (hfmt : (MIME_FORMAT_MAP.lookup (stripMimeParams msg.mime)).isSome = true)
    (hlen : env.pcmLen % 2 = 0) :
    (transcribe_audio_message env c s msg).1 = Except.ok () ∧
    Ev.reply "Error" ∈ (transcribe_audio_message env c s msg).2 := by
  obtain ⟨fmt, hfmt⟩ := Option.isSome_iff_exists.mp hfmt
  have hrun : run_ffmpeg msg.mime = (Except.ok fmt, [Ev.spawnDecoder fmt]) := by
    simp [run_ffmpeg, hfmt]
  have hdrv : transcribe_audio_whisper env (some m) msg.mime =
      (Except.ok "Error",
        [Ev.spawnDecoder fmt, Ev.logged LogMsg.whisperException]) := by
    simp [transcribe_audio_whisper, hrun, hw, hlen, hr]
  simp [transcribe_audio_message, ha, hu, hf, hb, hw, hm, hdrv]

/-- Witness for `whisper_failure_replies_error` at a concrete failing
whisper request. -/
theorem whisper_failure_replies_error_witness :
    (transcribe_audio_message EnvWhisperFail ConfWhisper
      StateWhisperLoaded MsgOgg).1 = Except.ok () ∧
    Ev.reply "Error" ∈
      (transcribe_audio_message EnvWhisperFail ConfWhisper
        StateWhisperLoaded MsgOgg).2 :=
  whisper_failure_replies_error EnvWhisperFail ConfWhisper StateWhisperLoaded
    MsgOgg "tiny" rfl rfl rfl rfl rfl (by decide) rfl (by decide) (by decide)

/-- Claim C6, code bug.  From the initial state, the reconcile sequence
`[vosk /models/A (valid), vosk /models/B (invalid), vosk /models/A]`:
the second call correctly reports the missing model directory, releases
the old model and leaves `current_backend = none`, but because lines
91-94 of `maulocalstt.py` delete `self.vosk_model` with `del` without
re-assigning it, the third call — which the claim says must succeed and
load normally — raises `AttributeError` at the `self.vosk_model is not
None` check and loads nothing. -/
theorem vosk_invalid_path_retry_bug :
    (on_config_update EnvPath ConfVoskB
        ((on_config_update EnvPath ConfVoskA initState).2.1)).2.1.current_backend
      = none ∧
    (on_config_update EnvPath ConfVoskB
        ((on_config_update EnvPath ConfVoskA initState).2.1)).2.2 =
      [Ev.release Backend.vosk, Ev.logged LogMsg.voskModelNotFound] ∧
    on_config_update EnvPath ConfVoskA
        ((on_config_update EnvPath ConfVoskB
          ((on_config_update EnvPath ConfVoskA initState).2.1)).2.1) =
      (Except.error PyErr.attributeError,
        (on_config_update EnvPath ConfVoskB
          ((on_config_update EnvPath ConfVoskA initState).2.1)).2.1, []) := by
  exact ⟨rfl, rfl, rfl⟩

/-! ### Helper lemmas about event traces and the reconcile branches -/

theorem whisperLoadCount_append (a b : List Ev) :
    whisperLoadCount (a ++ b) = whisperLoadCount a + whisperLoadCount b := by
  simp [whisperLoadCount, List.filter_append]

theorem evSum_append (a b : List Ev) : evSum (a ++ b) = evSum a + evSum b := by
  simp [evSum]

theorem le_maxLive (evs : List Ev) : ∀ n : Int, n ≤ maxLive n evs := by
  induction evs with
  | nil => intro n; simp [maxLive]
  | cons e es ih => intro n; simp only [maxLive]; exact le_max_left _ _

theorem final_le_maxLive (evs : List Ev) :
    ∀ n : Int, n + evSum evs ≤ maxLive n evs := by
  induction evs with
  | nil => intro n; simp [maxLive, evSum]
  | cons e es ih =>
    intro n
    simp only [maxLive, evSum, List.map_cons, List.sum_cons]
    have := ih (n + liveDelta e)
    simp only [evSum] at this
    refine le_trans ?_ (le_max_right _ _)
    omega

theorem maxLive_append (a b : List Ev) :
    ∀ n : Int, maxLive n (a ++ b) = max (maxLive n a) (maxLive (n + evSum a) b) := by
  induction a with
  | nil =>
    intro n
    simp [maxLive, evSum]
    exact le_maxLive b n
  | cons e es ih =>
    intro n
    rw [List.cons_append]
    simp only [maxLive]
    rw [ih (n + liveDelta e)]
    rw [show evSum (e :: es) = liveDelta e + evSum es by
      simp only [evSum, List.map_cons, List.sum_cons]]
    rw [← add_assoc, max_assoc]

theorem whisperBranch_load_le_one (env : Env) (c : Conf) (s : STTState) :
    whisperLoadCount (whisperBranch env c s).2.2 ≤ 1 := by
  unfold whisperBranch
  repeat' split
  all_goals simp [whisperLoadCount]

theorem voskBranch_not_vosk (env : Env) (c : Conf) (s : STTState)
    (hb : c.backend ≠ "vosk") :
    voskBranch env c s = (Except.ok (), s, []) := by
  simp [voskBranch, hb]

theorem on_config_update_whisper (env : Env) (c : Conf) (s : STTState)
    (hb : c.backend = "whisper") :
    on_config_update env c s = whisperBranch env c s := by
  unfold on_config_update
  rcases h : whisperBranch env c s with ⟨r, s1, ev⟩
  rcases r with e | u
  · rfl
  · have hv := voskBranch_not_vosk env c s1 (by simp [hb])
    simp [hv]

theorem whisperBranch_second_no_load (env : Env) (c : Conf) (s : STTState) :
    whisperLoadCount (whisperBranch env c ((whisperBranch env c s).2.1)).2.2 = 0 := by
  by_cases hb : c.backend = "whisper"
  · by_cases hi : env.whisperInstalled = true
    · by_cases hg : s.current_backend = some Backend.whisper ∧
          s.last_whisper_model_name = some c.whisper.model_name
      · rcases hw : s.whisper_model with _ | wm
        · simp [whisperBranch, hb, hi, hg, hw, whisperLoadCount]
        · rcases wm with _ | w
          · simp [whisperBranch, hb, hi, hg, hw, whisperLoadCount]
          · simp [whisperBranch, hb, hi, hg, hw, whisperLoadCount]
      · rcases hw : s.whisper_model with _ | wm
        · simp [whisperBranch, hb, hi, hg, hw, whisperLoadCount]
        · rcases hv : s.vosk_model with _ | vm
          · rcases wm with _ | w <;>
              simp [whisperBranch, hb, hi, hg, hw, hv, whisperLoadCount]
          · rcases wm with _ | w <;> rcases vm with _ | v <;>
              simp [whisperBranch, hb, hi, hg, hw, hv, whisperLoadCount]
    · simp [whisperBranch, hb, hi, whisperLoadCount]
  · simp [whisperBranch, hb, whisperLoadCount]

theorem runSeq_replicate_no_load (env : Env) (c : Conf) (hb : c.backend = "whisper") :
    ∀ (m : Nat) (s : STTState),
      whisperLoadCount (runSeq env (List.replicate m c)
        ((on_config_update env c s).2.1)).2 = 0 := by
  intro m
  induction m with
  | zero => intro s; simp [runSeq, whisperLoadCount]
  | succ k ih =>
    intro s
    simp only [List.replicate_succ, runSeq]
    rw [whisperLoadCount_append]
    have h1 : whisperLoadCount
        (on_config_update env c ((on_config_update env c s).2.1)).2.2 = 0 := by
      rw [on_config_update_whisper env c _ hb, on_config_update_whisper env c _ hb]
      exact whisperBranch_second_no_load env c s
    rw [h1, ih ((on_config_update env c s).2.1)]

theorem whisperBranch_live (env : Env) (c : Conf) (s : STTState)
    (h : storedLive s ≤ 1) :
    maxLive (storedLive s : ℤ) (whisperBranch env c s).2.2 ≤ 1 ∧
    (storedLive (whisperBranch env c s).2.1 : ℤ) =
      (storedLive s : ℤ) + evSum (whisperBranch env c s).2.2 := by
  unfold whisperBranch
  repeat' split
  all_goals simp_all [storedLive, attrLive, maxLive, evSum, liveDelta]
  all_goals omega

theorem voskBranch_live (env : Env) (c : Conf) (s : STTState)
    (h : storedLive s ≤ 1) :
    maxLive (storedLive s : ℤ) (voskBranch env c s).2.2 ≤ 1 ∧
    (storedLive (voskBranch env c s).2.1 : ℤ) =
      (storedLive s : ℤ) + evSum (voskBranch env c s).2.2 := by
  unfold voskBranch
  repeat' split
  all_goals simp_all [storedLive, attrLive, maxLive, evSum, liveDelta]
  all_goals omega

theorem on_config_update_live (env : Env) (c : Conf) (s : STTState)
    (h : storedLive s ≤ 1) :
    maxLive (storedLive s : ℤ) (on_config_update env c s).2.2 ≤ 1 ∧
    (storedLive (on_config_update env c s).2.1 : ℤ) =
      (storedLive s : ℤ) + evSum (on_config_update env c s).2.2 := by
  have hl := whisperBranch_live env c s h
  unfold on_config_update
  rcases hwb : whisperBranch env c s with ⟨r, s1, ev1⟩
  rw [hwb] at hl
  rcases r with e | u
  · exact hl
  · simp only at hl ⊢
    have hs1 : storedLive s1 ≤ 1 := by
      have := final_le_maxLive ev1 (storedLive s : ℤ)
      omega
    have hv := voskBranch_live env c s1 hs1
    rw [maxLive_append, evSum_append]
    constructor
    · apply max_le hl.1
      rw [← hl.2]
      exact hv.1
    · have h2 := hv.2
      omega

theorem runSeq_live (env : Env) :
    ∀ (confs : List Conf) (s : STTState), storedLive s ≤ 1 →
      maxLive (storedLive s : ℤ) (runSeq env confs s).2 ≤ 1 ∧
      (storedLive (runSeq env confs s).1 : ℤ) =
        (storedLive s : ℤ) + evSum (runSeq env confs s).2 := by
  intro confs
  induction confs with
  | nil =>
    intro s h
    refine ⟨?_, ?_⟩
    · simp only [runSeq, maxLive]
      exact_mod_cast h
    · simp [runSeq, evSum]
  | cons c cs ih =>
    intro s h
    simp only [runSeq]
    have h1 := on_config_update_live env c s h
    have hs1 : storedLive (on_config_update env c s).2.1 ≤ 1 := by
      have := final_le_maxLive (on_config_update env c s).2.2 (storedLive s : ℤ)
      omega
    have h2 := ih ((on_config_update env c s).2.1) hs1
    rw [maxLive_append, evSum_append]
    refine ⟨?_, ?_⟩
    · apply max_le h1.1
      rw [← h1.2]
      exact h2.1
    · have := h2.2
      omega

/-- Claim C2.  Over every sequence of `on_config_update` calls from the
initial state (arbitrary configurations, including sequences that
alternate backend kinds), the number of simultaneously live model
handles never exceeds one at any instant of the combined event trace:
every load is preceded by the release of whatever model was live
before. -/
theorem at_most_one_live_model (env : Env) (confs : List Conf) :
    maxLive 0 (runSeq env confs initState).2 ≤ 1 := by
  have h := (runSeq_live env confs initState
    (by simp [storedLive, initState, attrLive])).1
  simpa [storedLive, initState, attrLive] using h

/-- Claim C5.  Reconcile is idempotent with respect to whisper model
loading: after any prefix of configuration updates, applying an
unchanged whisper configuration `n` times loads the whisper model at
most once in total. -/
theorem whisper_reconcile_idempotent (env : Env) (pre : List Conf) (c : Conf)
    (n : Nat) (hb : c.backend = "whisper") :
    whisperLoadCount (runSeq env (List.replicate n c)
      ((runSeq env pre initState).1)).2 ≤ 1 := by
  cases n with
  | zero => simp [runSeq, whisperLoadCount]
  | succ k =>
    simp only [List.replicate_succ, runSeq]
    rw [whisperLoadCount_append]
    have h1 : whisperLoadCount
        (on_config_update env c ((runSeq env pre initState).1)).2.2 ≤ 1 := by
      rw [on_config_update_whisper env c _ hb]
      exact whisperBranch_load_le_one env c _
    have h2 := runSeq_replicate_no_load env c hb k ((runSeq env pre initState).1)
    omega

/-- Witness for `whisper_reconcile_idempotent`: three consecutive
applications of the same whisper configuration from the initial state. -/
theorem whisper_reconcile_idempotent_witness :
    whisperLoadCount (runSeq EnvWhisperFail (List.replicate 3 ConfWhisper)
      ((runSeq EnvWhisperFail [] initState).1)).2 ≤ 1 :=
  whisper_reconcile_idempotent EnvWhisperFail [] ConfWhisper 3 rfl

end MauLocalSTT
